import Mathlib

/-!
Shallow embedding of the AWS utility scripts (`S3_manager.py`,
`instance_mgr.py`, `ec2_instances.py`, `sample_auto_config.py`).

Remote boto3 calls are modelled by an oracle (`Remote`) that fixes, for each
remote operation, either an opaque response value or a raised exception.
Every embedded operation returns its Python result (`Except PyExc PyVal`,
where `PyVal.none` is Python's `None` and `Except.error` a raised exception)
together with the trace of observable effects (`List S3Event`): remote calls,
printed messages, and interactive prompts.
-/

/-- A Python runtime value as far as these scripts inspect it: `None`, a
string, or an opaque response object from boto3 identified by a tag. -/
inductive PyVal where
  | none
  | str (s : String)
  | blob (tag : String) (n : Nat)
deriving DecidableEq, Repr

/-- Python exceptions that the scripts can raise or observe: boto3
`ClientError`, a `NameError`/`UnboundLocalError` on an unbound variable, or
any other failure coming back from a remote call. -/
inductive PyExc where
  | clientError
  | nameError (var : String)
  | remoteFailure (tag : String) (n : Nat)
deriving DecidableEq, Repr

/-- Render a `PyVal` the way `"%s" % resp` would. -/
def pyRepr : PyVal → String
  | .none => "None"
  | .str s => s
  | .blob tag n => "<" ++ tag ++ ":" ++ toString n ++ ">"

/-- Observable effects of the S3 manager: remote API calls, printed
messages and interactive prompts. -/
inductive S3Event where
  | headBucket (bucket : String)
  | listBuckets
  | deleteObjects (bucket : String)
  | deleteBucketCall (bucket : String)
  | uploadFile (bucket file : String) (extraArgs : List (String × String))
  | downloadFile (bucket file dest : String)
  | copyObject (srcBucket dstBucket file : String)
  | deleteObject (bucket file : String)
  | getAcl (bucket file : String)
  | getGrants (bucket file : String)
  | putAcl (bucket file acl : String)
  | enableVersioningCall (bucket : String)
  | printMsg (msg : String)
  | promptUser (msg : String)
deriving DecidableEq, Repr

/-- Whether an event is a remote *mutating* call (changes state on the S3
side or uploads data); `headBucket`, ACL reads, listing, downloading and
local printing are not. -/
def S3Event.mutating : S3Event → Bool
  | .deleteObjects _ => true
  | .deleteBucketCall _ => true
  | .uploadFile _ _ _ => true
  | .copyObject _ _ _ => true
  | .deleteObject _ _ => true
  | .putAcl _ _ _ => true
  | .enableVersioningCall _ => true
  | _ => false

/-- Oracle fixing the behaviour of every remote boto3 call and of the local
filesystem probe `os.path.exists`.  `headBucket` models
`client.head_bucket`: `.error .clientError` when the bucket does not exist
or is inaccessible. -/
structure Remote where
  headBucket : String → Except PyExc PyVal
  allBucketNames : List String
  deleteObjects : String → Except PyExc PyVal
  deleteBucket : String → Except PyExc PyVal
  uploadFile : String → String → List (String × String) → Except PyExc PyVal
  downloadFile : String → String → String → Except PyExc PyVal
  copyObject : String → String → String → Except PyExc PyVal
  deleteObject : String → String → Except PyExc PyVal
  getAcl : String → String → Except PyExc PyVal
  getGrants : String → String → Except PyExc PyVal
  putAcl : String → String → String → Except PyExc PyVal
  enableVersioning : String → Except PyExc PyVal
  localFileExists : String → Bool

/-- `AWSResource.dprint`: prints `"%s: (%d) %s" % (cname, level, msg)` when
`level <= self.debug`.  All guarded operations live on `S3Bucket`, so the
class name is `S3Bucket`. -/
def dprint (debug level : Nat) (msg : String) : List S3Event :=
  if level ≤ debug then
    [S3Event.printMsg ("S3Bucket: (" ++ toString level ++ ") " ++ msg)]
  else []

/-- `S3Bucket.bucket_exists`: `head_bucket` and catch `ClientError` as
`False`; any other exception propagates. -/
def bucket_exists (r : Remote) (bucket_name : String) :
    Except PyExc Bool × List S3Event :=
  match r.headBucket bucket_name with
  | .ok _ => (.ok true, [.headBucket bucket_name])
  | .error .clientError => (.ok false, [.headBucket bucket_name])
  | .error e => (.error e, [.headBucket bucket_name])

/-- The diagnostic printed by the guard when the bucket is absent. -/
def no_bucket_msg (bucket_name : String) : String :=
  "S3Bucket: Bucket (" ++ bucket_name ++ ") does NOT exist or is inaccessible"

/-- `MethodDecorators.check_bucket_exists`: probe the bucket; on failure
print a diagnostic and return `None` without calling `func`; on success
forward `bucket_name` and the remaining arguments `args` unchanged and
return `func`'s result verbatim. -/
def check_bucket_exists {β : Type}
    (r : Remote) (func : String → β → Except PyExc PyVal × List S3Event)
    (bucket_name : String) (args : β) : Except PyExc PyVal × List S3Event :=
  match bucket_exists r bucket_name with
  | (.ok true, ev) =>
      let call := func bucket_name args
      (call.1, ev ++ call.2)
  | (.ok false, ev) => (.ok .none, ev ++ [.printMsg (no_bucket_msg bucket_name)])
  | (.error e, ev) => (.error e, ev)

/-- Result of a guarded operation when the existence probe fails. -/
def guard_fail_result (bucket_name : String) :
    Except PyExc PyVal × List S3Event :=
  (.ok .none, [.headBucket bucket_name, .printMsg (no_bucket_msg bucket_name)])

/-- Body of `S3Bucket.empty_bucket` (inside the decorator). -/
def empty_bucket_body (r : Remote) (debug : Nat) (bucket_name : String) :
    Except PyExc PyVal × List S3Event :=
  let ev1 := dprint debug 1 ("Emptying bucket (" ++ bucket_name ++ ")")
  match r.deleteObjects bucket_name with
  | .error e => (.error e, ev1 ++ [.deleteObjects bucket_name])
  | .ok resp =>
      (.ok resp, ev1 ++ [.deleteObjects bucket_name]
        ++ dprint debug 1 ("RESP-empty_bucket(): " ++ pyRepr resp))

/-- `S3Bucket.empty_bucket` (guarded). -/
def empty_bucket (r : Remote) (debug : Nat) (bucket_name : String) :
    Except PyExc PyVal × List S3Event :=
  check_bucket_exists r (fun b _ => empty_bucket_body r debug b) bucket_name ()

/-- Body of `S3Bucket.delete_bucket`: first call the (guarded)
`empty_bucket`; an exception there propagates and the delete call is never
made; otherwise `bucket.delete()`. -/
def delete_bucket_body (r : Remote) (debug : Nat) (bucket_name : String) :
    Except PyExc PyVal × List S3Event :=
  let empt := empty_bucket r debug bucket_name
  match empt.1 with
  | .error e => (.error e, empt.2)
  | .ok _ =>
      let ev2 := dprint debug 1 ("Deleting bucket (" ++ bucket_name ++ ")")
      match r.deleteBucket bucket_name with
      | .error e => (.error e, empt.2 ++ ev2 ++ [.deleteBucketCall bucket_name])
      | .ok resp =>
          (.ok resp, empt.2 ++ ev2 ++ [.deleteBucketCall bucket_name]
            ++ dprint debug 1 ("RESP-delete_bucket(): " ++ pyRepr resp))

/-- `S3Bucket.delete_bucket` (guarded). -/
def delete_bucket (r : Remote) (debug : Nat) (bucket_name : String) :
    Except PyExc PyVal × List S3Event :=
  check_bucket_exists r (fun b _ => delete_bucket_body r debug b) bucket_name ()

/-- Body of `S3Bucket.push_file`: upload the file with the `**kwargs`
forwarded as `ExtraArgs`. -/
def push_file_body (r : Remote) (debug : Nat) (bucket_name filename : String)
    (kwargs : List (String × String)) : Except PyExc PyVal × List S3Event :=
  let ev1 := dprint debug 1
    ("Pushing file (" ++ filename ++ ") to bucket (" ++ bucket_name ++ ")")
  match r.uploadFile bucket_name filename kwargs with
  | .error e => (.error e, ev1 ++ [.uploadFile bucket_name filename kwargs])
  | .ok resp =>
      (.ok resp, ev1 ++ [.uploadFile bucket_name filename kwargs]
        ++ dprint debug 1 ("RESP-upload_file(): " ++ pyRepr resp))

/-- `S3Bucket.push_file` (guarded). -/
def push_file (r : Remote) (debug : Nat) (bucket_name filename : String)
    (kwargs : List (String × String)) : Except PyExc PyVal × List S3Event :=
  check_bucket_exists r (fun b p => push_file_body r debug b p.1 p.2)
    bucket_name (filename, kwargs)

/-- Body of `S3Bucket.pull_file`.  After a successful download the code
checks `os.path.exists(local_dest_path)` and, when the file is missing,
prints a message that interpolates the *module-global* `dest_path` (not the
parameter `local_dest_path`); when that global is unbound this raises a
`NameError` instead of printing. -/
def pull_file_body (r : Remote) (debug : Nat) (global_dest_path : Option String)
    (bucket_name filename local_dest_path : String) :
    Except PyExc PyVal × List S3Event :=
  let ev1 := dprint debug 1 ("Downloading file (" ++ filename ++ ") from bucket ("
    ++ bucket_name ++ ") to localhost:" ++ local_dest_path)
  match r.downloadFile bucket_name filename local_dest_path with
  | .error e => (.error e, ev1 ++ [.downloadFile bucket_name filename local_dest_path])
  | .ok resp =>
      let ev2 := ev1 ++ [.downloadFile bucket_name filename local_dest_path]
        ++ dprint debug 1 ("RESP-download_file(): " ++ pyRepr resp)
      if r.localFileExists local_dest_path then (.ok resp, ev2)
      else
        match global_dest_path with
        | Option.none => (.error (.nameError "dest_path"), ev2)
        | Option.some dp =>
            (.ok resp,
              ev2 ++ [.printMsg ("ERROR - File download failed - local file not found: " ++ dp)])

/-- `S3Bucket.pull_file` (guarded). -/
def pull_file (r : Remote) (debug : Nat) (global_dest_path : Option String)
    (bucket_name filename local_dest_path : String) :
    Except PyExc PyVal × List S3Event :=
  check_bucket_exists r (fun b p => pull_file_body r debug global_dest_path b p.1 p.2)
    bucket_name (filename, local_dest_path)

/-- Body of `S3Bucket.remove_file`. -/
def remove_file_body (r : Remote) (debug : Nat) (bucket_name filename : String) :
    Except PyExc PyVal × List S3Event :=
  let ev1 := dprint debug 1
    ("Removing file (" ++ filename ++ ") from bucket (" ++ bucket_name ++ ")")
  match r.deleteObject bucket_name filename with
  | .error e => (.error e, ev1 ++ [.deleteObject bucket_name filename])
  | .ok resp =>
      (.ok resp, ev1 ++ [.deleteObject bucket_name filename]
        ++ dprint debug 1 ("RESP-delete_file(): " ++ pyRepr resp))

/-- `S3Bucket.remove_file` (guarded). -/
def remove_file (r : Remote) (debug : Nat) (bucket_name filename : String) :
    Except PyExc PyVal × List S3Event :=
  check_bucket_exists r (fun b fn => remove_file_body r debug b fn) bucket_name filename

/-- Body of `S3Bucket.get_file_acls`. -/
def get_file_acls_body (r : Remote) (bucket_name filename : String) :
    Except PyExc PyVal × List S3Event :=
  let ev1 := [S3Event.printMsg
    ("S3Bucket: Getting ACLs for file=(" ++ filename ++ ") in bucket=(" ++ bucket_name ++ ")")]
  match r.getAcl bucket_name filename with
  | .error e => (.error e, ev1 ++ [.getAcl bucket_name filename])
  | .ok resp => (.ok resp, ev1 ++ [.getAcl bucket_name filename])

/-- `S3Bucket.get_file_acls` (guarded). -/
def get_file_acls (r : Remote) (bucket_name filename : String) :
    Except PyExc PyVal × List S3Event :=
  check_bucket_exists r (fun b fn => get_file_acls_body r b fn) bucket_name filename

/-- Body of `S3Bucket.get_file_grants`. -/
def get_file_grants_body (r : Remote) (bucket_name filename : String) :
    Except PyExc PyVal × List S3Event :=
  let ev1 := [S3Event.printMsg
    ("S3Bucket: Getting grants for file=(" ++ filename ++ ") in bucket=(" ++ bucket_name ++ ")")]
  match r.getGrants bucket_name filename with
  | .error e => (.error e, ev1 ++ [.getGrants bucket_name filename])
  | .ok resp => (.ok resp, ev1 ++ [.getGrants bucket_name filename])

/-- `S3Bucket.get_file_grants` (guarded). -/
def get_file_grants (r : Remote) (bucket_name filename : String) :
    Except PyExc PyVal × List S3Event :=
  check_bucket_exists r (fun b fn => get_file_grants_body r b fn) bucket_name filename

/-- Body of `S3Bucket.set_file_acls`. -/
def set_file_acls_body (r : Remote) (bucket_name filename acl_value : String) :
    Except PyExc PyVal × List S3Event :=
  let ev1 := [S3Event.printMsg
    ("S3Bucket: Setting file ACL=(" ++ acl_value ++ ") on file=(" ++ filename
      ++ ") in bucket=(" ++ bucket_name ++ ")")]
  match r.putAcl bucket_name filename acl_value with
  | .error e => (.error e, ev1 ++ [.putAcl bucket_name filename acl_value])
  | .ok resp => (.ok resp, ev1 ++ [.putAcl bucket_name filename acl_value])

/-- `S3Bucket.set_file_acls` (guarded). -/
def set_file_acls (r : Remote) (bucket_name filename acl_value : String) :
    Except PyExc PyVal × List S3Event :=
  check_bucket_exists r (fun b p => set_file_acls_body r b p.1 p.2)
    bucket_name (filename, acl_value)

/-- Body of `S3Bucket.enable_bucket_versioning`. -/
def enable_bucket_versioning_body (r : Remote) (bucket_name : String) :
    Except PyExc PyVal × List S3Event :=
  let ev1 := [S3Event.printMsg
    ("S3Bucket: Enabling bucket-versioning for (" ++ bucket_name ++ ")")]
  match r.enableVersioning bucket_name with
  | .error e => (.error e, ev1 ++ [.enableVersioningCall bucket_name])
  | .ok status => (.ok status, ev1 ++ [.enableVersioningCall bucket_name])

/-- `S3Bucket.enable_bucket_versioning` (guarded). -/
def enable_bucket_versioning (r : Remote) (bucket_name : String) :
    Except PyExc PyVal × List S3Event :=
  check_bucket_exists r (fun b _ => enable_bucket_versioning_body r b) bucket_name ()

/-- `S3Bucket.copy_file` (not decorated; performs two manual probes).  When
the source probe fails, the diagnostic interpolates the misspelled
(unbound) name `bucket_name_souce`, so the `print` raises a `NameError`
instead of printing and returning `None`. -/
def copy_file (r : Remote) (debug : Nat)
    (bucket_name_source bucket_name_dest filename : String) :
    Except PyExc PyVal × List S3Event :=
  match bucket_exists r bucket_name_source with
  | (.error e, ev) => (.error e, ev)
  | (.ok false, ev) => (.error (.nameError "bucket_name_souce"), ev)
  | (.ok true, ev) =>
    match bucket_exists r bucket_name_dest with
    | (.error e, ev2) => (.error e, ev ++ ev2)
    | (.ok false, ev2) =>
        (.ok .none, ev ++ ev2 ++ [.printMsg ("S3Bucket: Destination bucket ("
          ++ bucket_name_dest ++ ") does not exist or is inaccessible")])
    | (.ok true, ev2) =>
        let ev3 := dprint debug 1 ("Copying file (" ++ filename ++ ") from bucket ("
          ++ bucket_name_source ++ ") to bucket (" ++ bucket_name_dest ++ ")")
        match r.copyObject bucket_name_source bucket_name_dest filename with
        | .error e =>
            (.error e, ev ++ ev2 ++ ev3
              ++ [.copyObject bucket_name_source bucket_name_dest filename])
        | .ok resp =>
            (.ok resp, ev ++ ev2 ++ ev3
              ++ [.copyObject bucket_name_source bucket_name_dest filename]
              ++ dprint debug 1 ("RESP-copy_file(): " ++ pyRepr resp))

/-- The per-name loop of `S3Bucket.delete_all`: delete each bucket in
listing order; an exception from one delete propagates and halts the
iteration over the remaining names.  `delete_all` itself has no `return`
statement, so on normal completion it returns `None`. -/
def delete_loop (r : Remote) (debug : Nat) :
    List String → Except PyExc PyVal × List S3Event
  | [] => (.ok .none, [])
  | n :: rest =>
    let dres := delete_bucket r debug n
    match dres.1 with
    | .error e => (.error e, dres.2)
    | .ok _ =>
        let tl := delete_loop r debug rest
        (tl.1, dres.2 ++ tl.2)

/-- The confirmation prompt printed by `delete_all`. -/
def prompt_msg (n : Nat) : String :=
  "Are you sure you want to remove all " ++ toString n ++ " buckets?: [y|n] "

/-- Python whitespace, as stripped by `str.strip()`. -/
def py_is_space (c : Char) : Bool :=
  c == ' ' || c == '\t' || c == '\n' || c == '\r' || c == '\x0b' || c == '\x0c'

/-- Python `str.strip()` over the character list. -/
def py_strip (s : List Char) : List Char :=
  ((s.dropWhile py_is_space).reverse.dropWhile py_is_space).reverse

/-- `S3Bucket.delete_all`: list all bucket names; when `verify` is truthy,
prompt and read `answer`; delete only when the stripped, lowercased answer
is `"y"` (with `verify` falsy the pre-set answer `'y'` is used and no
prompt is shown).  The interactive answer is a character list. -/
def delete_all (r : Remote) (debug : Nat) (verify : Nat) (answer : List Char) :
    Except PyExc PyVal × List S3Event :=
  let bnames := r.allBucketNames
  if bnames.length ≠ 0 then
    let promptEv := if verify ≠ 0 then [S3Event.promptUser (prompt_msg bnames.length)] else []
    let ans := if verify ≠ 0 then answer else "y".toList
    if (py_strip ans).map Char.toLower == "y".toList then
      let lres := delete_loop r debug bnames
      (lres.1, S3Event.listBuckets :: promptEv ++ lres.2)
    else (.ok .none, S3Event.listBuckets :: promptEv)
  else
    (.ok .none, [S3Event.listBuckets, S3Event.printMsg "S3Bucket: Zero buckets found"])

/-- `AWSResource.gen_uniq_name` over the character list of the strings:
`uuid4_hex` stands for `uuid.uuid4().hex` (32 lowercase hex characters);
a `char_limit` below 2 falls back to 32; the suffix is the hex string
truncated to `char_limit`; the prefix `pfx` is lowercased. -/
def gen_uniq_name (uuid4_hex : List Char) (pfx : List Char)
    (char_limit : Int := 32) : List Char :=
  let cl := if char_limit < 2 then (32 : Int) else char_limit
  let random_suffix := uuid4_hex.take cl.toNat
  pfx.map Char.toLower ++ random_suffix

/-- The 16 characters `uuid.uuid4().hex` draws from. -/
def is_hex_digit (c : Char) : Bool :=
  ("0123456789abcdef".toList).contains c

/-!
Embedding of `instance_mgr.py`: the per-instance dispatch of the
`__main__` loop, and `get_instance_data` with its Python local-variable
scoping (the `name` variable survives from one loop iteration to the next
and is unbound before the first `Name`-tag assignment).
-/

/-- Observable effects of the instance manager: printed lines, warnings,
and the remote start/stop calls. -/
inductive Ec2Event where
  | printOut (msg : String)
  | warn (msg : String)
  | startCall (instId : String)
  | stopCall (instId : String)
deriving DecidableEq, Repr

def Ec2Event.isStart : Ec2Event → Bool
  | .startCall _ => true
  | _ => false

def Ec2Event.isStop : Ec2Event → Bool
  | .stopCall _ => true
  | _ => false

def Ec2Event.isWarn : Ec2Event → Bool
  | .warn _ => true
  | _ => false

/-- The fields of one entry of `instance_data` that the `__main__`
dispatch reads. -/
structure InstanceInfo where
  instId : String
  name : String
  state : String
  public_ip : String
deriving DecidableEq, Repr

/-- The body of the `for inst_id,data in instance_data.items()` loop in
`instance_mgr.py`'s `__main__`: `--stop` is checked before `--start`; a
start on a non-stopped instance warns and then `sys.exit(0)` (second
component `true`); otherwise the status branch prints the state and, for a
non-stopped instance, the public IP. -/
def dispatch_instance (stop_flag start_flag : Bool) (debug : Nat)
    (data : InstanceInfo) : List Ec2Event × Bool :=
  let ev0 := if debug ≠ 0 then
    [Ec2Event.printOut ("Instance (" ++ data.instId ++ ") state: " ++ data.state)]
  else []
  if stop_flag then
    if data.state == "stopped" then
      (ev0 ++ [.warn ("WARNING - Instance is already in state=" ++ data.state)], false)
    else
      (ev0 ++ [.printOut ("instance_mgr.py: STOPPING instance (" ++ data.instId ++ ")"),
               .stopCall data.instId], false)
  else if start_flag then
    if data.state == "stopped" then
      (ev0 ++ [.printOut ("instance_mgr.py: STARTING instance (" ++ data.instId ++ ")"),
               .startCall data.instId], false)
    else
      (ev0 ++ [.warn ("WARNING - Instance is currently in state=" ++ data.state)], true)
  else
    let ev1 := ev0 ++ [Ec2Event.printOut ("Instance-id (" ++ data.instId ++ "); Name=("
      ++ data.name ++ ") STATE: " ++ data.state)]
    (if data.state ≠ "stopped" then
       ev1 ++ [Ec2Event.printOut ("PUBLIC-IP: " ++ data.public_ip)]
     else ev1, false)

/-- The whole dispatch loop; a `sys.exit(0)` from one instance halts the
iteration over the remaining ones. -/
def dispatch_all (stop_flag start_flag : Bool) (debug : Nat) :
    List InstanceInfo → List Ec2Event
  | [] => []
  | d :: rest =>
    let step := dispatch_instance stop_flag start_flag debug d
    if step.2 then step.1
    else step.1 ++ dispatch_all stop_flag start_flag debug rest

/-- Raw instance record as returned by the remote listing, with the fields
`get_instance_data` projects; `tags` are `(Key, Value)` pairs. -/
structure RawInstance where
  instId : String
  tags : List (String × String)
  instance_type : String
  state : String
  private_ip : String
  public_ip : String
  launch_time : String
deriving DecidableEq, Repr

/-- The descriptor dictionary built per instance. -/
structure InstDescr where
  name : String
  type : String
  state : String
  private_ip : String
  public_ip : String
  launch_time : String
deriving DecidableEq, Repr

/-- Does `hay` start with `needle`? -/
def starts_with_chars : List Char → List Char → Bool
  | [], _ => true
  | _ :: _, [] => false
  | c :: cs, h :: hs => c == h && starts_with_chars cs hs

/-- Does `needle` occur contiguously inside `hay`? -/
def has_infix_chars (needle : List Char) : List Char → Bool
  | [] => needle.isEmpty
  | h :: hs => starts_with_chars needle (h :: hs) || has_infix_chars needle hs

/-- Python's substring test `needle in hay`. -/
def pyIn (needle hay : String) : Bool :=
  has_infix_chars needle.toList hay.toList

/-- The inner `for tag in instance.tags` loop: each tag whose key contains
`"Name"` overwrites the `name` variable; `nameVar` is the value `name` had
before the loop (`Option.none` when still unbound). -/
def scan_name_tags (nameVar : Option String) (tags : List (String × String)) :
    Option String :=
  tags.foldl (fun n t => if pyIn "Name" t.1 then Option.some t.2 else n) nameVar

/-- The instance loop of `instance_mgr.get_instance_data`, carrying the
Python local `name` across iterations.  The tag loop runs *before* the
`instance_id` filter, so a filtered-out instance still overwrites `name`.
Reading `name` while unbound raises `UnboundLocalError` (a `NameError`),
modelled as `.error (.nameError "name")`. -/
def get_instance_data_from (instance_id : Option String) :
    Option String → List RawInstance → Except PyExc (List (String × InstDescr))
  | _, [] => .ok []
  | nameVar, inst :: rest =>
    let nameVar2 := scan_name_tags nameVar inst.tags
    let skip : Bool := match instance_id with
      | Option.some iid => inst.instId != iid
      | Option.none => false
    if skip then get_instance_data_from instance_id nameVar2 rest
    else
      match nameVar2 with
      | Option.none => .error (.nameError "name")
      | Option.some nm =>
        match get_instance_data_from instance_id nameVar2 rest with
        | .error e => .error e
        | .ok tl =>
            .ok ((inst.instId,
              ⟨nm, inst.instance_type, inst.state, inst.private_ip,
               inst.public_ip, inst.launch_time⟩) :: tl)

/-- `instance_mgr.get_instance_data`: iterate over all instances with the
`name` local initially unbound. -/
def get_instance_data (instances : List RawInstance)
    (instance_id : Option String) : Except PyExc (List (String × InstDescr)) :=
  get_instance_data_from instance_id Option.none instances

/-!
Embedding of `sample_auto_config.py`'s `get_data`: one `requests.get`
against the fixed link-local metadata URL with the key appended and a
`timeout=0.01` (seconds); a `RequestException` is re-raised unchanged,
otherwise the response's `.text` is returned.  The HTTP layer is an oracle
`http : url → timeout → Except ReqException String`; the second component
of the result records the requests issued as `(url, timeout)` pairs.
-/

/-- Transport failures `requests` can raise (all subclasses of
`RequestException`). -/
inductive ReqException where
  | timeoutExc
  | connectionError
  | other (tag : String)
deriving DecidableEq, Repr

def meta_data_url : String := "http://169.254.169.254/latest/meta-data/"

/-- The fixed timeout passed to `requests.get`, in seconds. -/
def request_timeout : ℚ := 0.01

/-- `sample_auto_config.get_data`. -/
def get_data (http : String → ℚ → Except ReqException String)
    (data_method : String) : Except ReqException String × List (String × ℚ) :=
  let request_url := meta_data_url ++ data_method
  match http request_url request_timeout with
  | .error e => (.error e, [(request_url, request_timeout)])
  | .ok text => (.ok text, [(request_url, request_timeout)])

/-!
Derived definitions and concrete oracles used by the theorems below.
-/

/-- The events `delete_bucket` appends after the inner `empty_bucket` call:
nothing when `empty_bucket` raised, otherwise the delete call (and debug
prints). -/
def after_empty_events (r : Remote) (debug : Nat) (b : String) : List S3Event :=
  match (empty_bucket r debug b).1 with
  | .error _ => []
  | .ok _ =>
      dprint debug 1 ("Deleting bucket (" ++ b ++ ")")
        ++ [S3Event.deleteBucketCall b]
        ++ (match r.deleteBucket b with
            | .error _ => []
            | .ok resp => dprint debug 1 ("RESP-delete_bucket(): " ++ pyRepr resp))

/-- An oracle where no bucket exists (`head_bucket` always raises
`ClientError`) and every other remote call succeeds. -/
def rAbsent : Remote := {
  headBucket := fun _ => .error .clientError,
  allBucketNames := [],
  deleteObjects := fun _ => .ok (.blob "delObjs" 0),
  deleteBucket := fun _ => .ok (.blob "delBkt" 0),
  uploadFile := fun _ _ _ => .ok .none,
  downloadFile := fun _ _ _ => .ok .none,
  copyObject := fun _ _ _ => .ok (.blob "copy" 0),
  deleteObject := fun _ _ => .ok (.blob "delObj" 0),
  getAcl := fun _ _ => .ok (.blob "acl" 0),
  getGrants := fun _ _ => .ok (.blob "grants" 0),
  putAcl := fun _ _ _ => .ok (.blob "putacl" 0),
  enableVersioning := fun _ => .ok (.str "Enabled"),
  localFileExists := fun _ => true }

/-- An oracle where every bucket exists and every remote call succeeds. -/
def rPresent : Remote :=
  { rAbsent with headBucket := fun _ => .ok (.blob "head" 0) }

/-- An oracle where only the bucket `"dst"` exists. -/
def rOnlyDst : Remote :=
  { rAbsent with
    headBucket := fun b => if b == "dst" then .ok (.blob "head" 0) else .error .clientError,
    allBucketNames := ["dst"] }

/-- An oracle where buckets exist and downloads "succeed" but leave no
local file behind. -/
def rBadDownload : Remote :=
  { rPresent with localFileExists := fun _ => false }

/-- An oracle for exercising `delete_all`: three buckets, deleting
`"b2"` raises. -/
def rThreeBuckets : Remote :=
  { rPresent with
    allBucketNames := ["b1", "b2", "b3"],
    deleteBucket := fun b =>
      if b == "b2" then .error (.remoteFailure "denied" 1) else .ok (.blob "delBkt" 0) }

/-- A raw EC2 instance without any `Name`-like tag. -/
def instNoNameTag : RawInstance :=
  ⟨"i-2", [("env", "prod")], "t2.micro", "running", "10.0.0.2", "3.3.3.3", "2020-07-01"⟩

/-- A raw EC2 instance carrying a `Name` tag. -/
def instNamed : RawInstance :=
  ⟨"i-1", [("Name", "web01")], "t2.micro", "running", "10.0.0.1", "3.3.3.1", "2020-07-01"⟩

/-!
Helper lemmas about the probe and the guard.
-/

theorem bucket_exists_snd (r : Remote) (b : String) :
    (bucket_exists r b).2 = [S3Event.headBucket b] := by
  unfold bucket_exists
  rcases h : r.headBucket b with e | v
  · cases e <;> rfl
  · rfl

theorem bucket_exists_false_eq (r : Remote) (b : String)
    (h : (bucket_exists r b).1 = Except.ok false) :
    bucket_exists r b = (Except.ok false, [S3Event.headBucket b]) := by
  rw [← h, ← bucket_exists_snd r b]

theorem bucket_exists_true_eq (r : Remote) (b : String)
    (h : (bucket_exists r b).1 = Except.ok true) :
    bucket_exists r b = (Except.ok true, [S3Event.headBucket b]) := by
  rw [← h, ← bucket_exists_snd r b]

theorem guard_not_found {β : Type} (r : Remote)
    (func : String → β → Except PyExc PyVal × List S3Event) (b : String) (args : β)
    (h : (bucket_exists r b).1 = Except.ok false) :
    check_bucket_exists r func b args = guard_fail_result b := by
  unfold check_bucket_exists
  rw [bucket_exists_false_eq r b h]
  rfl

theorem guard_found {β : Type} (r : Remote)
    (func : String → β → Except PyExc PyVal × List S3Event) (b : String) (args : β)
    (h : (bucket_exists r b).1 = Except.ok true) :
    check_bucket_exists r func b args
      = ((func b args).1, S3Event.headBucket b :: (func b args).2) := by
  unfold check_bucket_exists
  rw [bucket_exists_true_eq r b h]
  rfl

theorem guard_probe_error {β : Type} (r : Remote)
    (func : String → β → Except PyExc PyVal × List S3Event) (b : String) (args : β)
    (e : PyExc) (h : (bucket_exists r b).1 = Except.error e) :
    check_bucket_exists r func b args = (Except.error e, [S3Event.headBucket b]) := by
  unfold check_bucket_exists
  rw [show bucket_exists r b = (Except.error e, [S3Event.headBucket b]) by
    rw [← h, ← bucket_exists_snd r b]]

theorem mem_dprint {e : S3Event} {d l : Nat} {m : String}
    (h : e ∈ dprint d l m) :
    e = S3Event.printMsg ("S3Bucket: (" ++ toString l ++ ") " ++ m) := by
  unfold dprint at h
  split at h
  · simpa using h
  · simp at h

theorem empty_bucket_body_no_delete_call (r : Remote) (d : Nat) (b b' : String) :
    S3Event.deleteBucketCall b' ∉ (empty_bucket_body r d b).2 := by
  intro hmem
  unfold empty_bucket_body at hmem
  rcases hdel : r.deleteObjects b with e | v <;> rw [hdel] at hmem <;>
    simp only [List.mem_append, List.mem_singleton] at hmem
  · rcases hmem with h1 | h1
    · exact absurd (mem_dprint h1) (by simp)
    · simp at h1
  · rcases hmem with (h1 | h1) | h1
    · exact absurd (mem_dprint h1) (by simp)
    · simp at h1
    · exact absurd (mem_dprint h1) (by simp)

theorem empty_bucket_no_delete_call (r : Remote) (d : Nat) (b b' : String) :
    S3Event.deleteBucketCall b' ∉ (empty_bucket r d b).2 := by
  intro hmem
  rcases hp : (bucket_exists r b).1 with e | bv
  · rw [show empty_bucket r d b = (Except.error e, [S3Event.headBucket b]) from
      guard_probe_error r _ b () e hp] at hmem
    simp at hmem
  · cases bv
    · rw [show empty_bucket r d b = guard_fail_result b from
        guard_not_found r _ b () hp] at hmem
      simp [guard_fail_result] at hmem
    · rw [show empty_bucket r d b
          = ((empty_bucket_body r d b).1,
             S3Event.headBucket b :: (empty_bucket_body r d b).2) from
        guard_found r _ b () hp] at hmem
      simp only [List.mem_cons] at hmem
      rcases hmem with h1 | h1
      · simp at h1
      · exact empty_bucket_body_no_delete_call r d b b' h1

/-!
Claim theorems.
-/

/-- C1: for every bucket name for which `bucket_exists` returns `false`,
each of the nine operations wrapped by `check_bucket_exists`
(`empty_bucket`, `delete_bucket`, `push_file`, `pull_file`, `remove_file`,
`get_file_acls`, `get_file_grants`, `set_file_acls`,
`enable_bucket_versioning`), for any further arguments, returns `None`
with only the probe and the diagnostic print in its trace — in particular
the wrapped operation is never invoked and no remote mutating call is
made. -/
theorem guarded_ops_absent_bucket_noop (r : Remote) (debug : Nat) (b : String)
    (h : (bucket_exists r b).1 = Except.ok false) :
    empty_bucket r debug b = guard_fail_result b
  ∧ delete_bucket r debug b = guard_fail_result b
  ∧ (∀ fn kw, push_file r debug b fn kw = guard_fail_result b)
  ∧ (∀ (gd : Option String) fn dst, pull_file r debug gd b fn dst = guard_fail_result b)
  ∧ (∀ fn, remove_file r debug b fn = guard_fail_result b)
  ∧ (∀ fn, get_file_acls r b fn = guard_fail_result b)
  ∧ (∀ fn, get_file_grants r b fn = guard_fail_result b)
  ∧ (∀ fn acl, set_file_acls r b fn acl = guard_fail_result b)
  ∧ enable_bucket_versioning r b = guard_fail_result b
  ∧ (guard_fail_result b).1 = Except.ok PyVal.none
  ∧ (∀ e ∈ (guard_fail_result b).2, e.mutating = false) := by
  refine ⟨guard_not_found r _ b () h, guard_not_found r _ b () h,
    fun fn kw => guard_not_found r _ b (fn, kw) h,
    fun _gd fn dst => guard_not_found r _ b (fn, dst) h,
    fun fn => guard_not_found r _ b fn h,
    fun fn => guard_not_found r _ b fn h,
    fun fn => guard_not_found r _ b fn h,
    fun fn acl => guard_not_found r _ b (fn, acl) h,
    guard_not_found r _ b () h, rfl, ?_⟩
  intro e he
  simp only [guard_fail_result, List.mem_cons, List.mem_singleton] at he
  rcases he with h1 | h1 | h1
  · subst h1; rfl
  · subst h1; rfl
  · exact absurd h1 (by simp)

theorem guarded_ops_absent_bucket_noop_witness :
    (bucket_exists rAbsent "ghost").1 = Except.ok false
  ∧ empty_bucket rAbsent 2 "ghost" = guard_fail_result "ghost" :=
  ⟨rfl, (guarded_ops_absent_bucket_noop rAbsent 2 "ghost" rfl).1⟩

/-- C2: when the probe answers `true`, the guard forwards the bucket name
and all remaining arguments unchanged to the wrapped operation and returns
its result verbatim (the trace is the probe followed by the wrapped
operation's own trace); stated generically over the wrapped operation and
its argument tuple, and instantiated at each of the nine guarded
operations. -/
theorem guard_forwards_on_existing_bucket (r : Remote) (debug : Nat) (b : String)
    (h : (bucket_exists r b).1 = Except.ok true) :
    (∀ (β : Type) (func : String → β → Except PyExc PyVal × List S3Event) (args : β),
       check_bucket_exists r func b args
         = ((func b args).1, S3Event.headBucket b :: (func b args).2))
  ∧ empty_bucket r debug b
      = ((empty_bucket_body r debug b).1,
         S3Event.headBucket b :: (empty_bucket_body r debug b).2)
  ∧ delete_bucket r debug b
      = ((delete_bucket_body r debug b).1,
         S3Event.headBucket b :: (delete_bucket_body r debug b).2)
  ∧ (∀ fn kw, push_file r debug b fn kw
      = ((push_file_body r debug b fn kw).1,
         S3Event.headBucket b :: (push_file_body r debug b fn kw).2))
  ∧ (∀ gd fn dst, pull_file r debug gd b fn dst
      = ((pull_file_body r debug gd b fn dst).1,
         S3Event.headBucket b :: (pull_file_body r debug gd b fn dst).2))
  ∧ (∀ fn, remove_file r debug b fn
      = ((remove_file_body r debug b fn).1,
         S3Event.headBucket b :: (remove_file_body r debug b fn).2))
  ∧ (∀ fn, get_file_acls r b fn
      = ((get_file_acls_body r b fn).1,
         S3Event.headBucket b :: (get_file_acls_body r b fn).2))
  ∧ (∀ fn, get_file_grants r b fn
      = ((get_file_grants_body r b fn).1,
         S3Event.headBucket b :: (get_file_grants_body r b fn).2))
  ∧ (∀ fn acl, set_file_acls r b fn acl
      = ((set_file_acls_body r b fn acl).1,
         S3Event.headBucket b :: (set_file_acls_body r b fn acl).2))
  ∧ enable_bucket_versioning r b
      = ((enable_bucket_versioning_body r b).1,
         S3Event.headBucket b :: (enable_bucket_versioning_body r b).2) :=
  ⟨fun _ func args => guard_found r func b args h,
   guard_found r _ b () h, guard_found r _ b () h,
   fun fn kw => guard_found r _ b (fn, kw) h,
   fun _gd fn dst => guard_found r _ b (fn, dst) h,
   fun fn => guard_found r _ b fn h,
   fun fn => guard_found r _ b fn h,
   fun fn => guard_found r _ b fn h,
   fun fn acl => guard_found r _ b (fn, acl) h,
   guard_found r _ b () h⟩

theorem guard_forwards_on_existing_bucket_witness :
    (bucket_exists rPresent "bkt").1 = Except.ok true
  ∧ empty_bucket rPresent 0 "bkt"
      = ((empty_bucket_body rPresent 0 "bkt").1,
         S3Event.headBucket "bkt" :: (empty_bucket_body rPresent 0 "bkt").2) :=
  ⟨rfl, (guard_forwards_on_existing_bucket rPresent 0 "bkt" rfl).2.1⟩

/-- C5: for an existing bucket, `delete_bucket` first runs `empty_bucket`
(the trace is the guard probe, then the whole `empty_bucket` trace, then
whatever follows); if `empty_bucket` raises, the exception propagates and
the remote bucket-delete call is never made; if `empty_bucket` returns
normally, the bucket-delete call is issued. -/
theorem delete_bucket_empties_first (r : Remote) (debug : Nat) (b : String)
    (h : (bucket_exists r b).1 = Except.ok true) :
    (delete_bucket r debug b).2
        = S3Event.headBucket b
            :: ((empty_bucket r debug b).2 ++ after_empty_events r debug b)
  ∧ (∀ e, (empty_bucket r debug b).1 = Except.error e →
       (delete_bucket r debug b).1 = Except.error e
       ∧ ∀ b', S3Event.deleteBucketCall b' ∉ (delete_bucket r debug b).2)
  ∧ (∀ w, (empty_bucket r debug b).1 = Except.ok w →
       S3Event.deleteBucketCall b ∈ (delete_bucket r debug b).2) := by
  have hdbEq : delete_bucket r debug b
      = ((delete_bucket_body r debug b).1,
         S3Event.headBucket b :: (delete_bucket_body r debug b).2) :=
    guard_found r _ b () h
  refine ⟨?_, ?_, ?_⟩
  · rw [hdbEq]
    unfold delete_bucket_body after_empty_events
    rcases hE : (empty_bucket r debug b).1 with e | w
    · simp [hE]
    · rcases hd2 : r.deleteBucket b with e2 | v2 <;>
        simp [hE, hd2, List.append_assoc]
  · intro e hE
    constructor
    · rw [hdbEq]
      unfold delete_bucket_body
      simp [hE]
    · intro b' hmem
      rw [hdbEq] at hmem
      unfold delete_bucket_body at hmem
      simp only [hE, List.mem_cons] at hmem
      rcases hmem with h1 | h1
      · simp at h1
      · exact empty_bucket_no_delete_call r debug b b' h1
  · intro w hE
    rw [hdbEq]
    unfold delete_bucket_body
    rcases hd2 : r.deleteBucket b with e2 | v2 <;> simp [hE, hd2]

theorem delete_bucket_empties_first_witness :
    (bucket_exists rPresent "bkt").1 = Except.ok true
  ∧ S3Event.deleteBucketCall "bkt" ∈ (delete_bucket rPresent 0 "bkt").2 :=
  ⟨rfl, (delete_bucket_empties_first rPresent 0 "bkt" rfl).2.2
    (PyVal.blob "delObjs" 0) rfl⟩

/-- C8: `delete_all` lists every bucket name; with `verify` truthy it
prompts and deletes (via `delete_bucket`, in listing order) only when the
stripped lowercased answer is `"y"`, otherwise nothing is deleted; with
`verify` falsy it deletes without prompting; an exception from deleting
one bucket propagates out of the loop and the remaining names are never
processed. -/
theorem delete_all_confirmation (r : Remote) (debug verify : Nat) (answer : List Char) :
    (verify ≠ 0 → r.allBucketNames ≠ [] → (py_strip answer).map Char.toLower ≠ "y".toList →
       delete_all r debug verify answer
         = (Except.ok PyVal.none,
            [S3Event.listBuckets,
             S3Event.promptUser (prompt_msg r.allBucketNames.length)]))
  ∧ (verify ≠ 0 → r.allBucketNames ≠ [] → (py_strip answer).map Char.toLower = "y".toList →
       delete_all r debug verify answer
         = ((delete_loop r debug r.allBucketNames).1,
            S3Event.listBuckets
              :: S3Event.promptUser (prompt_msg r.allBucketNames.length)
              :: (delete_loop r debug r.allBucketNames).2))
  ∧ (r.allBucketNames ≠ [] →
       delete_all r debug 0 answer
         = ((delete_loop r debug r.allBucketNames).1,
            S3Event.listBuckets :: (delete_loop r debug r.allBucketNames).2))
  ∧ (∀ n rest e, (delete_bucket r debug n).1 = Except.error e →
       delete_loop r debug (n :: rest)
         = (Except.error e, (delete_bucket r debug n).2)) := by
  refine ⟨?_, ?_, ?_, ?_⟩
  · intro hv hn hm
    unfold delete_all
    simp [hv, List.length_eq_zero, hn, beq_eq_false_iff_ne.mpr hm]
    intro hcontra
    exact absurd hcontra hm
  · intro hv hn hm
    unfold delete_all
    simp [hv, List.length_eq_zero, hn, hm]
  · intro hn
    unfold delete_all
    simp [List.length_eq_zero, hn]
    intro hcontra
    exact absurd (by decide) hcontra
  · intro n rest e he
    simp [delete_loop, he]

theorem delete_all_confirmation_witness :
    ((1 : Nat) ≠ 0 ∧ rThreeBuckets.allBucketNames ≠ []
      ∧ (py_strip "n".toList).map Char.toLower ≠ "y".toList)
  ∧ delete_all rThreeBuckets 0 1 "n".toList
      = (Except.ok PyVal.none,
         [S3Event.listBuckets, S3Event.promptUser (prompt_msg 3)]) :=
  ⟨⟨by decide, by decide, by decide⟩,
   (delete_all_confirmation rThreeBuckets 0 1 "n".toList).1
     (by decide) (by decide) (by decide)⟩

/-- C6: `gen_uniq_name` is the lowercased prefix followed by the hex
suffix truncated to `char_limit`: for prefix `"Test"` and limit 6 the
result is `"test"` plus exactly 6 hex characters; any limit below 2
(e.g. 1) falls back to the default 32, so the whole 32-character hex
string is used. -/
theorem gen_uniq_name_shape (u : List Char) (hlen : u.length = 32)
    (hhex : ∀ c ∈ u, is_hex_digit c = true) :
    (gen_uniq_name u "Test".toList 6 = "test".toList ++ u.take 6
     ∧ (u.take 6).length = 6
     ∧ (∀ c ∈ u.take 6, is_hex_digit c = true))
  ∧ (∀ cl : Int, cl < 2 →
       gen_uniq_name u "Test".toList cl = "test".toList ++ u ∧ u.length = 32) := by
  have hmap : "Test".toList.map Char.toLower = "test".toList := by decide
  constructor
  · refine ⟨?_, ?_, ?_⟩
    · have h6 : ¬ ((6 : Int) < 2) := by norm_num
      simp [gen_uniq_name, h6, hmap]
    · rw [List.length_take, hlen]
      decide
    · intro c hc
      exact hhex c (List.take_subset 6 u hc)
  · intro cl hcl
    refine ⟨?_, hlen⟩
    have htake : u.take (32 : Int).toNat = u := by
      apply List.take_of_length_le
      rw [hlen]
      norm_num
    simp [gen_uniq_name, hcl, htake, hmap]
    exact hlen.le

theorem gen_uniq_name_shape_witness :
    let u := "0123456789abcdef0123456789abcdef".toList
    u.length = 32
  ∧ (∀ c ∈ u, is_hex_digit c = true)
  ∧ gen_uniq_name u "Test".toList 6 = "test".toList ++ u.take 6 :=
  ⟨by decide, by decide,
   (gen_uniq_name_shape "0123456789abcdef0123456789abcdef".toList
     (by decide) (by decide)).1.1⟩

/-- C7: in the `instance_mgr` dispatch, `--start` on an instance whose
state is not `"stopped"` emits one warning and no remote start (or stop)
call; on a `"stopped"` instance it issues exactly one remote start call
and no warning; symmetrically `--stop` on a `"stopped"` instance emits one
warning and no remote stop call, and on any other state issues exactly one
remote stop call. -/
theorem instance_transition_preconditions (debug : Nat) (d : InstanceInfo)
    (sf : Bool) :
    (d.state ≠ "stopped" →
       (dispatch_instance false true debug d).1.countP Ec2Event.isWarn = 1
       ∧ (dispatch_instance false true debug d).1.countP Ec2Event.isStart = 0
       ∧ (dispatch_instance false true debug d).1.countP Ec2Event.isStop = 0)
  ∧ (d.state = "stopped" →
       (dispatch_instance false true debug d).1.countP Ec2Event.isStart = 1
       ∧ (dispatch_instance false true debug d).1.countP Ec2Event.isWarn = 0)
  ∧ (d.state = "stopped" →
       (dispatch_instance true sf debug d).1.countP Ec2Event.isWarn = 1
       ∧ (dispatch_instance true sf debug d).1.countP Ec2Event.isStop = 0)
  ∧ (d.state ≠ "stopped" →
       (dispatch_instance true sf debug d).1.countP Ec2Event.isStop = 1
       ∧ (dispatch_instance true sf debug d).1.countP Ec2Event.isWarn = 0) := by
  refine ⟨?_, ?_, ?_, ?_⟩ <;> intro hd <;>
    simp [dispatch_instance, hd, beq_eq_false_iff_ne.mpr, List.countP_append,
      List.countP_cons, Ec2Event.isWarn, Ec2Event.isStart, Ec2Event.isStop]

theorem instance_transition_preconditions_witness :
    (("running" : String) ≠ "stopped"
      ∧ (dispatch_instance false true 0
          ⟨"i-1", "web01", "running", "3.3.3.1"⟩).1.countP Ec2Event.isStart = 0)
  ∧ (dispatch_instance false true 0
       ⟨"i-2", "db01", "stopped", "-"⟩).1.countP Ec2Event.isStart = 1 :=
  ⟨⟨by decide,
    ((instance_transition_preconditions 0
      ⟨"i-1", "web01", "running", "3.3.3.1"⟩ false).1 (by decide)).2.1⟩,
   ((instance_transition_preconditions 0
      ⟨"i-2", "db01", "stopped", "-"⟩ false).2.1 (by decide)).1⟩

/-- C9: `get_data` issues exactly one HTTP GET, against the fixed
link-local metadata URL with the key appended, with the fixed 0.01-second
(10 ms) timeout; its result is exactly the HTTP layer's result — a
transport exception is re-raised to the caller unchanged, and otherwise
the response body is returned. -/
theorem get_data_single_request (http : String → ℚ → Except ReqException String)
    (data_method : String) :
    (get_data http data_method).2
        = [(meta_data_url ++ data_method, request_timeout)]
  ∧ (get_data http data_method).1
        = http (meta_data_url ++ data_method) request_timeout
  ∧ request_timeout = 1 / 100
  ∧ (1000 : ℚ) * request_timeout = 10 := by
  refine ⟨?_, ?_, by norm_num [request_timeout], by norm_num [request_timeout]⟩
  · unfold get_data
    rcases h : http (meta_data_url ++ data_method) request_timeout with e | t <;>
      simp [h]
  · unfold get_data
    rcases h : http (meta_data_url ++ data_method) request_timeout with e | t <;>
      simp [h]

/-- If no tag key contains `"Name"`, the tag loop leaves the `name`
variable untouched. -/
theorem scan_name_tags_no_match :
    ∀ (tags : List (String × String)) (nv : Option String),
      (∀ t ∈ tags, pyIn "Name" t.1 = false) → scan_name_tags nv tags = nv := by
  intro tags
  induction tags with
  | nil => intro nv _; rfl
  | cons t ts ih =>
      intro nv h
      have ht : pyIn "Name" t.1 = false := h t (List.mem_cons_self t ts)
      show scan_name_tags (if pyIn "Name" t.1 then Option.some t.2 else nv) ts = nv
      rw [ht]
      simp only [Bool.false_eq_true, if_false]
      exact ih nv (fun t' ht' => h t' (List.mem_cons_of_mem t ht'))

/-- C10: the `name` field is assigned only from tags whose key contains
`"Name"`: an instance without such a tag silently inherits the `name` left
over from an earlier iteration (here `v`), and when the very first
instance has no such tag the function raises an unhandled
`NameError`/`UnboundLocalError` instead of returning the dictionary. -/
theorem get_instance_name_tag_scoping (v : String) (inst : RawInstance)
    (rest : List RawInstance)
    (hno : ∀ t ∈ inst.tags, pyIn "Name" t.1 = false) :
    scan_name_tags (Option.some v) inst.tags = Option.some v
  ∧ (∀ out, get_instance_data_from Option.none (Option.some v) (inst :: rest)
        = Except.ok out →
       ∃ tl, out = (inst.instId,
         ⟨v, inst.instance_type, inst.state, inst.private_ip,
          inst.public_ip, inst.launch_time⟩) :: tl)
  ∧ get_instance_data (inst :: rest) Option.none
      = Except.error (PyExc.nameError "name") := by
  have hs := scan_name_tags_no_match inst.tags
  refine ⟨hs _ hno, ?_, ?_⟩
  · intro out hout
    rcases hrec : get_instance_data_from Option.none (Option.some v) rest with e | tl
    · simp [get_instance_data_from, hs _ hno, hrec] at hout
    · simp [get_instance_data_from, hs _ hno, hrec] at hout
      exact ⟨tl, hout.symm⟩
  · show get_instance_data_from Option.none Option.none (inst :: rest) = _
    simp [get_instance_data_from, hs Option.none hno]

theorem get_instance_name_tag_scoping_witness :
    pyIn "Name" "env" = false
  ∧ get_instance_data [instNoNameTag] Option.none
      = Except.error (PyExc.nameError "name") :=
  ⟨by decide,
   (get_instance_name_tag_scoping "w" instNoNameTag [] (by decide)).2.2⟩

/-- C3 (latent defect): when the *source* bucket of `copy_file` does not
exist, the diagnostic `print` interpolates the misspelled, unbound name
`bucket_name_souce`, so the call raises a `NameError` instead of printing
and returning `None`; the destination-missing branch, by contrast, prints
its diagnostic and returns `None` without raising. -/
theorem copy_file_missing_source_raises :
    copy_file rOnlyDst 2 "src" "dst" "f.txt"
      = (Except.error (PyExc.nameError "bucket_name_souce"),
         [S3Event.headBucket "src"])
  ∧ (bucket_exists rOnlyDst "src").1 = Except.ok false
  ∧ copy_file rOnlyDst 2 "dst" "nosuch" "f.txt"
      = (Except.ok PyVal.none,
         [S3Event.headBucket "dst", S3Event.headBucket "nosuch",
          S3Event.printMsg
            "S3Bucket: Destination bucket (nosuch) does not exist or is inaccessible"]) :=
  ⟨rfl, rfl, rfl⟩

/-- C4 (latent defect): when the download call returns but the local file
is missing, the error `print` reads the module-global `dest_path`; with
that global unbound (any import of the module) the check raises a
`NameError` instead of printing; with the global bound, the message is
printed and `pull_file` still returns the download call's response. -/
theorem pull_file_missing_local_file_raises :
    (pull_file rBadDownload 0 Option.none "bkt" "f.txt" "/tmp/f.txt").1
      = Except.error (PyExc.nameError "dest_path")
  ∧ pull_file rBadDownload 0 (Option.some "/tmp/f.txt") "bkt" "f.txt" "/tmp/f.txt"
      = (Except.ok PyVal.none,
         [S3Event.headBucket "bkt",
          S3Event.downloadFile "bkt" "f.txt" "/tmp/f.txt",
          S3Event.printMsg
            "ERROR - File download failed - local file not found: /tmp/f.txt"]) :=
  ⟨rfl, rfl⟩
